import Mathlib

/-!
Verification of the Streamlit wake-up script (src/scripts/wake_streamlit.py).

The script is a sequential orchestrator around a browser automation
library: it opens each given URL, looks for a wake-up button through a
fixed ordered list of selectors, clicks the first visible one, otherwise
checks a fixed list of indicators that the app is already running, and
reports per-URL and aggregate outcomes.

The embedding below models the browser automation layer as an explicit
environment (`ProbeEnv`): each call that the script makes into the
library (new_page, goto, is_visible, click) is a field of the
environment and either returns a value or raises an exception
(`PwError`).  The script itself is translated line by line into pure
functions over that environment; side effects that matter to the claims
(opening and closing the page, which selectors were checked and clicked,
inter-probe sleeps, engine/browser acquisition and release) are recorded
in event traces.
-/

namespace WakeStreamlit

/-- An exception raised by the automation layer: either the dedicated
timeout error class (PlaywrightTimeoutError) or any other exception,
carrying its message. -/
inductive PwError where
  | timeout
  | other (msg : String)
  deriving DecidableEq, Repr

/-- Observable events of one probe (wake_up_app): the page being opened,
a selector visibility check, a click attempt on a selector, and the page
being closed in the finally block. -/
inductive Ev where
  | newPage
  | checkSel (selector : String)
  | clickSel (selector : String)
  | closePage
  deriving DecidableEq, Repr

/-- The per-URL outcome record built by wake_up_app (lines 68-74 of the
source): url, success flag, status string, message, and the elapsed
navigation time in seconds. -/
structure WakeResult where
  url : String
  success : Bool
  status : String
  message : String
  response_time : ℚ
  deriving DecidableEq, Repr

/-- The behaviour of the automation layer during one probe: whether
browser.new_page raises, what page.goto returns (an optional HTTP status)
or raises, the elapsed time observed right after navigation, and for
each selector string what locator(s).is_visible and locator(s).click do.
Fixed-duration waits (wait_for_timeout) are modelled as never raising. -/
structure ProbeEnv where
  new_page : Except PwError Unit
  goto : Except PwError (Option Nat)
  elapsed : ℚ
  is_visible : String → Except PwError Bool
  click : String → Except PwError Unit

/-- The ordered list of 8 wake-up button selectors (lines 99-109). -/
def wake_up_selectors : List String :=
  ["button:has-text(\x27Yes, get this app back up!\x27)",
   "button:has-text(\x27Wake up\x27)",
   "button:has-text(\x27Start app\x27)",
   "button:has-text(\x27Rerun\x27)",
   "button[data-testid=\x27stButton\x27] >> text=\x27Yes, get this app back up!\x27",
   ".stButton button:has-text(\x27Yes, get this app back up!\x27)",
   "button:text-matches(\x27.*back up.*\x27, \x27i\x27)",
   "button:text-matches(\x27.*wake.*\x27, \x27i\x27)"]

/-- The ordered list of 4 indicators that the app is already running
(lines 140-145). -/
def streamlit_indicators : List String :=
  ["[data-testid=\x27stApp\x27]",
   ".main .block-container",
   "[data-testid=\x27stSidebar\x27]",
   ".stApp"]

/-- Python str.startswith: the argument is a prefix of the character
sequence of the string. -/
def starts_with (s p : String) : Bool :=
  List.isPrefixOf p.data s.data

/-- Decimal rendering of the fractional part r (0 < r < 1000) of a
division by 1000, with trailing zeros stripped, as Python float repr
shows it. -/
def float_frac_str (r : Nat) : String :=
  if r % 100 = 0 then toString (r / 100)
  else if r % 10 = 0 then
    (if r / 10 < 10 then "0" else "") ++ toString (r / 10)
  else
    (if r < 10 then "00" else if r < 100 then "0" else "") ++ toString r

/-- Rendering of the Python float self.timeout/1000 (the timeout is an
integer number of milliseconds), as interpolated into the timeout
message on line 167. -/
def py_seconds_str (timeoutMs : Nat) : String :=
  if timeoutMs % 1000 = 0 then toString (timeoutMs / 1000) ++ ".0"
  else toString (timeoutMs / 1000) ++ "." ++ float_frac_str (timeoutMs % 1000)

/-- The message recorded on a navigation timeout (line 167). -/
def timeout_message (timeoutMs : Nat) : String :=
  "Timeout after " ++ py_seconds_str timeoutMs ++ " seconds"

/-- The initial record of wake_up_app (lines 68-74). -/
def initial_result (url : String) : WakeResult :=
  { url := url, success := false, status := "unknown", message := "",
    response_time := 0 }

/-- The outer exception handlers of wake_up_app (lines 166-172): a
timeout stores the timeout message, any other exception stores
"Error: " followed by the exception text; status and success are left
at their initial values. -/
def exception_update (timeoutMs : Nat) (r : WakeResult) : PwError → WakeResult
  | PwError.timeout => { r with message := timeout_message timeoutMs }
  | PwError.other m => { r with message := "Error: " ++ m }

/-- The wake-up button loop (lines 113-136): for each selector in order,
check visibility; on a visible selector, click it and stop with success,
but if the visibility check or the click raises (either exception class)
fall through to the next selector.  Returns the button_found flag and
the trace of checks and click attempts. -/
def wake_button_loop (env : ProbeEnv) : List String → Bool × List Ev
  | [] => (false, [])
  | s :: rest =>
    match env.is_visible s with
    | Except.ok true =>
      match env.click s with
      | Except.ok _ => (true, [Ev.checkSel s, Ev.clickSel s])
      | Except.error _ =>
        let p := wake_button_loop env rest
        (p.1, Ev.checkSel s :: Ev.clickSel s :: p.2)
    | _ =>
      let p := wake_button_loop env rest
      (p.1, Ev.checkSel s :: p.2)

/-- The already-running indicator loop (lines 147-154): for each
indicator in order, check visibility; stop at the first visible one;
a bare except skips any indicator whose check raises. -/
def indicator_loop (env : ProbeEnv) : List String → Bool × List Ev
  | [] => (false, [])
  | s :: rest =>
    match env.is_visible s with
    | Except.ok true => (true, [Ev.checkSel s])
    | _ =>
      let p := indicator_loop env rest
      (p.1, Ev.checkSel s :: p.2)

/-- StreamlitWakeUp.wake_up_app (lines 58-181): build the initial
record, open a page, navigate, record the elapsed time, run the wake-up
button loop, then if no button was found the indicator loop, filling in
status, success and message accordingly; a timeout or other exception
from new_page or goto is caught by the outer handlers; the finally block
closes the page whenever one was opened.  Returns the record and the
event trace. -/
def wake_up_app (env : ProbeEnv) (url : String) (timeoutMs : Nat) :
    WakeResult × List Ev :=
  let r0 := initial_result url
  match env.new_page with
  | Except.error e => (exception_update timeoutMs r0 e, [])
  | Except.ok _ =>
    match env.goto with
    | Except.error e => (exception_update timeoutMs r0 e, [Ev.newPage, Ev.closePage])
    | Except.ok _ =>
      let r1 := { r0 with response_time := env.elapsed }
      let wb := wake_button_loop env wake_up_selectors
      if wb.1 then
        ({ r1 with
           success := true
           status := "woken_up"
           message := "Successfully clicked wake-up button" },
         Ev.newPage :: wb.2 ++ [Ev.closePage])
      else
        let ind := indicator_loop env streamlit_indicators
        if ind.1 then
          ({ r1 with
             success := true
             status := "already_awake"
             message := "App is already running" },
           Ev.newPage :: wb.2 ++ ind.2 ++ [Ev.closePage])
        else
          ({ r1 with
             status := "unclear"
             message := "No wake-up button found, app status unclear" },
           Ev.newPage :: wb.2 ++ ind.2 ++ [Ev.closePage])

/-- A wake-up selector that the loop acts on: its visibility check
reports visible and its click succeeds. -/
def wake_hit (env : ProbeEnv) (s : String) : Prop :=
  env.is_visible s = Except.ok true ∧ env.click s = Except.ok ()

/-- The events the wake-up button loop emits for one selector it passes
over or stops at: always a visibility check, plus a click attempt when
the check reported visible. -/
def checked_events (env : ProbeEnv) (s : String) : List Ev :=
  match env.is_visible s with
  | Except.ok true => [Ev.checkSel s, Ev.clickSel s]
  | _ => [Ev.checkSel s]

/-- Observable events of the multi-URL driver: invoking the prober on
the i-th URL (0-based), and a fixed-duration sleep in seconds. -/
inductive DrvEv where
  | probe (idx : Nat) (url : String)
  | sleep (secs : Nat)
  deriving DecidableEq, Repr

/-- Is a driver event a sleep. -/
def is_sleep : DrvEv → Bool
  | DrvEv.sleep _ => true
  | _ => false

/-- The probe event's index and URL, if the event is a probe. -/
def probe_of : DrvEv → Option (Nat × String)
  | DrvEv.probe i u => some (i, u)
  | _ => none

/-- The loop body of wake_up_multiple_apps (lines 198-205), carried out
from position i with n the total number of URLs: probe the URL, then
sleep 2 seconds unless this was the last URL.  The behaviour of the
automation layer during the probe at position i is envs i. -/
def wake_up_multiple_go (envs : Nat → ProbeEnv) (timeoutMs n : Nat) :
    Nat → List String → List WakeResult × List DrvEv
  | _, [] => ([], [])
  | i, url :: rest =>
    let r := (wake_up_app (envs i) url timeoutMs).1
    let tail := wake_up_multiple_go envs timeoutMs n (i + 1) rest
    (r :: tail.1,
     DrvEv.probe i url ::
       (if i + 1 < n then DrvEv.sleep 2 :: tail.2 else tail.2))

/-- StreamlitWakeUp.wake_up_multiple_apps (lines 183-207): probe each
URL in order, collecting the records, with a 2-second sleep between
consecutive probes and none after the last. -/
def wake_up_multiple_apps (envs : Nat → ProbeEnv) (timeoutMs : Nat)
    (urls : List String) : List WakeResult × List DrvEv :=
  wake_up_multiple_go envs timeoutMs urls.length 0 urls

/-- One step of the counting loop of print_summary (lines 219-237): the
accumulator is (successful, already_awake, failed). -/
def summary_step (acc : Nat × Nat × Nat) (r : WakeResult) : Nat × Nat × Nat :=
  if r.status = "woken_up" then (acc.1 + 1, acc.2.1, acc.2.2)
  else if r.status = "already_awake" then (acc.1, acc.2.1 + 1, acc.2.2)
  else (acc.1, acc.2.1, acc.2.2 + 1)

/-- The (successful, already_awake, failed) counters print_summary has
accumulated after its loop over the records. -/
def summary_counts (results : List WakeResult) : Nat × Nat × Nat :=
  results.foldl summary_step (0, 0, 0)

/-- The success rate print_summary prints (line 245): the woken-up and
already-awake counts over the total, times 100, and 0 for an empty
record list. -/
def success_rate (results : List WakeResult) : ℚ :=
  if results.isEmpty then 0
  else (((summary_counts results).1 + (summary_counts results).2.1 : ℚ) /
        (results.length : ℚ)) * 100

/-- The failed_count of main (line 298): how many records have a status
outside woken_up and already_awake. -/
def failed_count (results : List WakeResult) : Nat :=
  (results.filter
    (fun r => !(r.status == "woken_up" || r.status == "already_awake"))).length

/-- The exit code main passes to sys.exit after a completed run
(line 299). -/
def exit_code_of_results (results : List WakeResult) : Nat :=
  if failed_count results = 0 then 0 else 1

/-- How the run of main ends: the wake-up process completed and produced
its records, or a keyboard interrupt, or any other fatal exception
(lines 292-306). -/
inductive RunOutcome where
  | completed (results : List WakeResult)
  | interrupted
  | fatal (msg : String)

/-- The process exit code (lines 297-306): for a completed run the code
computed from the records, and 1 on an interrupt or a fatal
exception. -/
def main_exit_code : RunOutcome → Nat
  | RunOutcome.completed results => exit_code_of_results results
  | RunOutcome.interrupted => 1
  | RunOutcome.fatal _ => 1

/-- The URL validation of main (lines 284-289): a URL that starts with
neither http:// nor https:// gets https:// prepended and a warning is
printed (the second component records whether the warning fired). -/
def validate_url (url : String) : String × Bool :=
  if starts_with url "http://" || starts_with url "https://" then (url, false)
  else ("https://" ++ url, true)

/-- Acquisition and release events of the session manager: starting the
automation engine (sync_playwright().start()), launching the browser,
closing the browser, and stopping the engine. -/
inductive SessionEv where
  | startEngine
  | launchBrowser
  | closeBrowser
  | stopEngine
  deriving DecidableEq, Repr

/-- The behaviour of the automation layer during one session: whether
the engine start succeeds, whether the browser launch succeeds, and
whether the body of the with-statement (the probing phase) raises. -/
structure SessionEnv where
  start_ok : Bool
  launch_ok : Bool
  body_raises : Bool

/-- The with-statement of main over StreamlitWakeUp (lines 34-56 and
292-306) under Python semantics: StreamlitWakeUp.__enter__ starts the
engine and then launches the browser; if __enter__ raises, __exit__ is
not invoked; once __enter__ has returned, __exit__ (close the browser,
stop the engine) runs whether or not the body raises.  Returns the
acquisition/release trace and whether the body completed normally. -/
def run_with_session (env : SessionEnv) : List SessionEv × Bool :=
  if env.start_ok = false then ([], false)
  else if env.launch_ok = false then ([SessionEv.startEngine], false)
  else ([SessionEv.startEngine, SessionEv.launchBrowser,
         SessionEv.closeBrowser, SessionEv.stopEngine],
        !env.body_raises)

/-- The first wake-up selector of the list. -/
def sel_back_up : String := "button:has-text(\x27Yes, get this app back up!\x27)"

/-- An environment in which the page opens and navigation succeeds but
no selector is ever visible. -/
def quiet_env : ProbeEnv :=
  { new_page := Except.ok ()
    goto := Except.ok (some 200)
    elapsed := 0
    is_visible := fun _ => Except.ok false
    click := fun _ => Except.ok () }

/-- An environment in which the first wake-up selector is visible but
every click raises, and nothing else is visible: the loop passes over
the visible selector and the probe falls through to the indicators. -/
def c1_env : ProbeEnv :=
  { new_page := Except.ok ()
    goto := Except.ok (some 200)
    elapsed := 1
    is_visible := fun s => if s = sel_back_up then Except.ok true else Except.ok false
    click := fun _ => Except.error (PwError.other "element is not attached") }

/-- An environment in which the first wake-up selector is visible and
its click succeeds. -/
def c1_wit_env : ProbeEnv :=
  { new_page := Except.ok ()
    goto := Except.ok (some 200)
    elapsed := 2
    is_visible := fun s => if s = sel_back_up then Except.ok true else Except.ok false
    click := fun _ => Except.ok () }

/-- An environment in which navigation raises the timeout error. -/
def c3_env : ProbeEnv :=
  { new_page := Except.ok ()
    goto := Except.error PwError.timeout
    elapsed := 0
    is_visible := fun _ => Except.ok false
    click := fun _ => Except.ok () }

/-- A session in which the engine starts but the browser launch
raises. -/
def c9_env : SessionEnv :=
  { start_ok := true, launch_ok := false, body_raises := false }

/-- A sample record with a woken_up status. -/
def sample_result : WakeResult :=
  { url := "https://a.streamlit.app", success := true, status := "woken_up",
    message := "Successfully clicked wake-up button", response_time := 1 }

/-- The full trace of visibility checks and click attempts the wake-up
button loop emits while passing over a list of selectors none of which
it stops at. -/
def loop_trace (env : ProbeEnv) : List String → List Ev
  | [] => []
  | s :: rest => checked_events env s ++ loop_trace env rest

theorem wake_button_loop_found (env : ProbeEnv) :
    ∀ l : List String, (∃ s ∈ l, wake_hit env s) →
    ∃ pre s post, l = pre ++ s :: post ∧ wake_hit env s ∧
      (∀ s2 ∈ pre, ¬ wake_hit env s2) ∧
      wake_button_loop env l =
        (true, loop_trace env pre ++ [Ev.checkSel s, Ev.clickSel s]) := by
  intro l
  induction l with
  | nil =>
    rintro ⟨s, hs, _⟩
    exact absurd hs (List.not_mem_nil s)
  | cons a rest ih =>
    intro hex
    by_cases ha : wake_hit env a
    · obtain ⟨hv, hc⟩ := ha
      refine ⟨[], a, rest, rfl, ⟨hv, hc⟩, by simp, ?_⟩
      simp [wake_button_loop, hv, hc, loop_trace]
    · have hex2 : ∃ s ∈ rest, wake_hit env s := by
        obtain ⟨s, hs, hh⟩ := hex
        rcases List.mem_cons.mp hs with rfl | hs2
        · exact absurd hh ha
        · exact ⟨s, hs2, hh⟩
      obtain ⟨pre, s, post, heq, hh, hpre, hloop⟩ := ih hex2
      refine ⟨a :: pre, s, post, by rw [heq]; rfl, hh, ?_, ?_⟩
      · intro s2 hs2
        rcases List.mem_cons.mp hs2 with rfl | h2
        · exact ha
        · exact hpre s2 h2
      · cases hv : env.is_visible a with
        | error e =>
          simp [wake_button_loop, hv, hloop, loop_trace, checked_events]
        | ok b =>
          cases b with
          | false =>
            simp [wake_button_loop, hv, hloop, loop_trace, checked_events]
          | true =>
            cases hc : env.click a with
            | ok u =>
              refine absurd ⟨hv, ?_⟩ ha
              cases u
              exact hc
            | error e =>
              simp [wake_button_loop, hv, hc, hloop, loop_trace, checked_events]

theorem wake_button_loop_not_found (env : ProbeEnv) :
    ∀ l : List String, (∀ s ∈ l, ¬ wake_hit env s) →
    wake_button_loop env l = (false, loop_trace env l) := by
  intro l
  induction l with
  | nil => intro _; rfl
  | cons a rest ih =>
    intro h
    have hrest := ih (fun s hs => h s (List.mem_cons_of_mem a hs))
    cases hv : env.is_visible a with
    | error e =>
      simp [wake_button_loop, hv, hrest, loop_trace, checked_events]
    | ok b =>
      cases b with
      | false =>
        simp [wake_button_loop, hv, hrest, loop_trace, checked_events]
      | true =>
        cases hc : env.click a with
        | ok u =>
          refine absurd ⟨hv, ?_⟩ (h a (List.mem_cons_self a rest))
          cases u
          exact hc
        | error e =>
          simp [wake_button_loop, hv, hc, hrest, loop_trace, checked_events]

theorem indicator_loop_found (env : ProbeEnv) :
    ∀ l : List String, (∃ s ∈ l, env.is_visible s = Except.ok true) →
    (indicator_loop env l).1 = true := by
  intro l
  induction l with
  | nil =>
    rintro ⟨s, hs, _⟩
    exact absurd hs (List.not_mem_nil s)
  | cons a rest ih =>
    rintro ⟨s, hs, hvis⟩
    by_cases ha : env.is_visible a = Except.ok true
    · simp [indicator_loop, ha]
    · have hex2 : ∃ s ∈ rest, env.is_visible s = Except.ok true := by
        rcases List.mem_cons.mp hs with rfl | hs2
        · exact absurd hvis ha
        · exact ⟨s, hs2, hvis⟩
      have htail := ih hex2
      cases hv : env.is_visible a with
      | error e => simp [indicator_loop, hv, htail]
      | ok b =>
        cases b with
        | false => simp [indicator_loop, hv, htail]
        | true => exact absurd hv ha

theorem indicator_loop_not_found (env : ProbeEnv) :
    ∀ l : List String, (∀ s ∈ l, ¬ env.is_visible s = Except.ok true) →
    (indicator_loop env l).1 = false := by
  intro l
  induction l with
  | nil => intro _; rfl
  | cons a rest ih =>
    intro h
    have htail := ih (fun s hs => h s (List.mem_cons_of_mem a hs))
    cases hv : env.is_visible a with
    | error e => simp [indicator_loop, hv, htail]
    | ok b =>
      cases b with
      | false => simp [indicator_loop, hv, htail]
      | true => exact absurd hv (h a (List.mem_cons_self a rest))

/-- C1 (amended): for every successful navigation, the prober iterates
the 8 wake-up selectors in order and stops at the first one whose
visibility check reports visible and whose click then succeeds, setting
status woken_up with success true and checking no later selector and no
indicator; a selector whose visibility check raises, reports not
visible, or whose click raises is passed over.  Only if no wake-up
selector was both reported visible and successfully clicked does it
probe the 4 indicator selectors, setting already_awake with success
true if any reports visible and unclear with success false
otherwise. -/
theorem wake_up_app_classification (env : ProbeEnv) (url : String) (t : Nat)
    (resp : Option Nat) (hpage : env.new_page = Except.ok ())
    (hnav : env.goto = Except.ok resp) :
    ((∃ s ∈ wake_up_selectors, wake_hit env s) →
      ∃ pre s post, wake_up_selectors = pre ++ s :: post ∧ wake_hit env s ∧
        (∀ s2 ∈ pre, ¬ wake_hit env s2) ∧
        wake_up_app env url t =
          ({ url := url
             success := true
             status := "woken_up"
             message := "Successfully clicked wake-up button"
             response_time := env.elapsed },
           Ev.newPage ::
             (loop_trace env pre ++ [Ev.checkSel s, Ev.clickSel s]) ++
             [Ev.closePage]))
    ∧ ((∀ s ∈ wake_up_selectors, ¬ wake_hit env s) →
       ((∃ s ∈ streamlit_indicators, env.is_visible s = Except.ok true) →
          (wake_up_app env url t).1.status = "already_awake" ∧
          (wake_up_app env url t).1.success = true) ∧
       ((∀ s ∈ streamlit_indicators, ¬ env.is_visible s = Except.ok true) →
          (wake_up_app env url t).1.status = "unclear" ∧
          (wake_up_app env url t).1.success = false)) := by
  constructor
  · intro hex
    obtain ⟨pre, s, post, heq, hh, hpre, hloop⟩ :=
      wake_button_loop_found env wake_up_selectors hex
    refine ⟨pre, s, post, heq, hh, hpre, ?_⟩
    simp [wake_up_app, hpage, hnav, hloop, initial_result]
  · intro hnone
    have hloop := wake_button_loop_not_found env wake_up_selectors hnone
    constructor
    · intro hind
      have hi := indicator_loop_found env streamlit_indicators hind
      simp [wake_up_app, hpage, hnav, hloop, hi, initial_result]
    · intro hind
      have hi := indicator_loop_not_found env streamlit_indicators hind
      simp [wake_up_app, hpage, hnav, hloop, hi, initial_result]

theorem wake_up_app_classification_witness :
    (wake_up_app c1_wit_env "https://a.streamlit.app" 30000).1.status = "woken_up" ∧
    (wake_up_app c1_wit_env "https://a.streamlit.app" 30000).1.success = true := by
  have hhit : wake_hit c1_wit_env sel_back_up := by
    constructor
    · simp [c1_wit_env]
    · rfl
  have h := (wake_up_app_classification c1_wit_env "https://a.streamlit.app"
      30000 (some 200) rfl rfl).1 ⟨sel_back_up, by decide, hhit⟩
  obtain ⟨pre, s, post, heq, hh, hpre, happ⟩ := h
  rw [happ]
  exact ⟨rfl, rfl⟩

theorem wake_up_app_first_visible_counterexample :
    c1_env.new_page = Except.ok () ∧
    c1_env.goto = Except.ok (some 200) ∧
    wake_up_selectors.head? = some sel_back_up ∧
    c1_env.is_visible sel_back_up = Except.ok true ∧
    (wake_up_app c1_env "https://a.streamlit.app" 30000).1.status = "unclear" ∧
    (wake_up_app c1_env "https://a.streamlit.app" 30000).1.success = false ∧
    Ev.checkSel "button:has-text(\x27Wake up\x27)" ∈
      (wake_up_app c1_env "https://a.streamlit.app" 30000).2 ∧
    Ev.checkSel ".stApp" ∈
      (wake_up_app c1_env "https://a.streamlit.app" 30000).2 := by
  refine ⟨rfl, rfl, rfl, by simp [c1_env], by decide, by decide, by decide, by decide⟩

theorem exit_code_zero_iff (results : List WakeResult) :
    exit_code_of_results results = 0 ↔
      ∀ r ∈ results, r.status = "woken_up" ∨ r.status = "already_awake" := by
  unfold exit_code_of_results failed_count
  constructor
  · intro h0 r hr
    by_contra hbad
    push_neg at hbad
    have hmem : r ∈ results.filter
        (fun r => !(r.status == "woken_up" || r.status == "already_awake")) := by
      refine List.mem_filter.mpr ⟨hr, ?_⟩
      simp [hbad.1, hbad.2]
    have hlen : 0 < (results.filter
        (fun r => !(r.status == "woken_up" || r.status == "already_awake"))).length :=
      List.length_pos.mpr (fun hnil => by rw [hnil] at hmem; exact List.not_mem_nil r hmem)
    rw [if_neg (by omega)] at h0
    exact absurd h0 one_ne_zero
  · intro hall
    rw [if_pos]
    rw [List.length_eq_zero, List.filter_eq_nil_iff]
    intro r hr
    rcases hall r hr with h | h <;> simp [h]

/-- C2: the process exit code is 0 exactly when the run completed and
every outcome record has status woken_up or already_awake; in every
other completed run, and on a keyboard interrupt or fatal top-level
exception, the exit code is 1. -/
theorem main_exit_code_spec (o : RunOutcome) :
    (main_exit_code o = 0 ↔
      ∃ results, o = RunOutcome.completed results ∧
        ∀ r ∈ results, r.status = "woken_up" ∨ r.status = "already_awake")
    ∧ (main_exit_code o = 1 ↔
      ¬ ∃ results, o = RunOutcome.completed results ∧
        ∀ r ∈ results, r.status = "woken_up" ∨ r.status = "already_awake") := by
  cases o with
  | completed results =>
    constructor
    · rw [main_exit_code]
      constructor
      · intro h0
        exact ⟨results, rfl, (exit_code_zero_iff results).mp h0⟩
      · rintro ⟨results2, heq, hall⟩
        cases heq
        exact (exit_code_zero_iff results).mpr hall
    · rw [main_exit_code]
      unfold exit_code_of_results
      constructor
      · intro h1 hex
        obtain ⟨results2, heq, hall⟩ := hex
        cases heq
        have h0 : exit_code_of_results results = 0 :=
          (exit_code_zero_iff results).mpr hall
        unfold exit_code_of_results at h0
        rw [h0] at h1
        exact absurd h1 (by decide)
      · intro hnot
        rw [if_neg]
        intro hzero
        have h0 : exit_code_of_results results = 0 := by
          unfold exit_code_of_results
          rw [if_pos hzero]
        exact hnot ⟨results, rfl, (exit_code_zero_iff results).mp h0⟩
  | interrupted =>
    constructor
    · simp [main_exit_code]
    · simp [main_exit_code]
  | fatal m =>
    constructor
    · simp [main_exit_code]
    · simp [main_exit_code]

theorem main_exit_code_spec_witness :
    main_exit_code (RunOutcome.completed [sample_result]) = 0 ∧
    main_exit_code RunOutcome.interrupted = 1 := by
  constructor
  · exact (main_exit_code_spec (RunOutcome.completed [sample_result])).1.mpr
      ⟨[sample_result], rfl, by intro r hr; simp at hr; subst hr; left; rfl⟩
  · exact (main_exit_code_spec RunOutcome.interrupted).2.mpr (by rintro ⟨_, h, _⟩; cases h)

/-- C5: a URL that starts with neither http:// nor https:// is
navigated to with https:// prepended exactly once and the warning is
printed; a URL that already starts with http:// or https:// passes
through unchanged with no warning. -/
theorem validate_url_spec (url : String) :
    (¬ (starts_with url "http://" = true ∨ starts_with url "https://" = true) →
      validate_url url = ("https://" ++ url, true))
    ∧ ((starts_with url "http://" = true ∨ starts_with url "https://" = true) →
      validate_url url = (url, false)) := by
  constructor
  · intro h
    push_neg at h
    simp [validate_url, h.1, h.2]
  · intro h
    rcases h with h | h <;> simp [validate_url, h]

theorem validate_url_spec_witness :
    validate_url "example.streamlit.app" = ("https://example.streamlit.app", true) ∧
    validate_url "https://example.streamlit.app" = ("https://example.streamlit.app", false) := by
  constructor
  · exact (validate_url_spec "example.streamlit.app").1 (by decide)
  · exact (validate_url_spec "https://example.streamlit.app").2 (by decide)

/-- C9 (amended): once session acquisition has completed (the engine
started and the browser launched), the session manager closes the
browser and stops the engine on every exit path of the run, including
one where the probing phase raises; but when the browser launch raises
after the engine already started, the with-statement never invokes
StreamlitWakeUp.__exit__ and the engine is not stopped. -/
theorem run_with_session_release (env : SessionEnv)
    (hstart : env.start_ok = true) (hlaunch : env.launch_ok = true) :
    (run_with_session env).1 =
      [SessionEv.startEngine, SessionEv.launchBrowser,
       SessionEv.closeBrowser, SessionEv.stopEngine] := by
  simp [run_with_session, hstart, hlaunch]

theorem run_with_session_release_witness :
    (run_with_session
      { start_ok := true, launch_ok := true, body_raises := true }).1 =
      [SessionEv.startEngine, SessionEv.launchBrowser,
       SessionEv.closeBrowser, SessionEv.stopEngine] :=
  run_with_session_release
    { start_ok := true, launch_ok := true, body_raises := true } rfl rfl

theorem session_acquisition_leak_counterexample :
    c9_env.start_ok = true ∧
    SessionEv.startEngine ∈ (run_with_session c9_env).1 ∧
    SessionEv.stopEngine ∉ (run_with_session c9_env).1 ∧
    SessionEv.closeBrowser ∉ (run_with_session c9_env).1 := by
  decide

/-- C10: when new_page or goto raises (timeout or any other exception)
the record keeps its initial response_time of 0; a nonzero
response_time therefore only occurs when navigation completed, in which
case the field holds the elapsed time observed after navigation. -/
theorem wake_up_app_response_time (env : ProbeEnv) (url : String) (t : Nat) :
    (∀ e, env.new_page = Except.error e →
      (wake_up_app env url t).1.response_time = 0)
    ∧ (∀ e, env.new_page = Except.ok () → env.goto = Except.error e →
      (wake_up_app env url t).1.response_time = 0)
    ∧ ((wake_up_app env url t).1.response_time ≠ 0 →
      env.new_page = Except.ok () ∧ ∃ x, env.goto = Except.ok x)
    ∧ (∀ x, env.new_page = Except.ok () → env.goto = Except.ok x →
      (wake_up_app env url t).1.response_time = env.elapsed) := by
  refine ⟨?_, ?_, ?_, ?_⟩
  · intro e he
    cases e <;> simp [wake_up_app, he, exception_update, initial_result]
  · intro e hp hg
    cases e <;> simp [wake_up_app, hp, hg, exception_update, initial_result]
  · intro hne
    cases hp : env.new_page with
    | error e =>
      refine absurd ?_ hne
      cases e <;> simp [wake_up_app, hp, exception_update, initial_result]
    | ok u =>
      cases u
      cases hg : env.goto with
      | error e =>
        refine absurd ?_ hne
        cases e <;> simp [wake_up_app, hp, hg, exception_update, initial_result]
      | ok x =>
        constructor
        · rfl
        · exact ⟨x, rfl⟩
  · intro x hp hg
    simp only [wake_up_app, hp, hg, initial_result]
    split
    · rfl
    · split <;> rfl

theorem wake_up_app_response_time_witness :
    (wake_up_app c3_env "https://a.streamlit.app" 30000).1.response_time = 0 ∧
    (wake_up_app c1_wit_env "https://a.streamlit.app" 30000).1.response_time = 2 := by
  constructor
  · exact (wake_up_app_response_time c3_env "https://a.streamlit.app" 30000).2.1
      PwError.timeout rfl rfl
  · exact (wake_up_app_response_time c1_wit_env "https://a.streamlit.app" 30000).2.2.2
      (some 200) rfl rfl

/-- C6: every record the prober returns has a status in the fixed
enumeration woken_up, already_awake, unclear, unknown, and its success
flag is true exactly when the status is woken_up or already_awake. -/
theorem wake_up_app_status_invariant (env : ProbeEnv) (url : String) (t : Nat) :
    ((wake_up_app env url t).1.status = "woken_up" ∨
     (wake_up_app env url t).1.status = "already_awake" ∨
     (wake_up_app env url t).1.status = "unclear" ∨
     (wake_up_app env url t).1.status = "unknown")
    ∧ ((wake_up_app env url t).1.success = true ↔
       ((wake_up_app env url t).1.status = "woken_up" ∨
        (wake_up_app env url t).1.status = "already_awake")) := by
  cases hp : env.new_page with
  | error e =>
    cases e <;> simp [wake_up_app, hp, exception_update, initial_result]
  | ok u =>
    cases u
    cases hg : env.goto with
    | error e =>
      cases e <;> simp [wake_up_app, hp, hg, exception_update, initial_result]
    | ok x =>
      rcases hwb : wake_button_loop env wake_up_selectors with ⟨fb, tr⟩
      cases fb with
      | true => simp [wake_up_app, hp, hg, hwb, initial_result]
      | false =>
        rcases hind : indicator_loop env streamlit_indicators with ⟨fi, ti⟩
        cases fi <;> simp [wake_up_app, hp, hg, hwb, hind, initial_result]

theorem wake_up_app_status_invariant_witness :
    (wake_up_app quiet_env "https://a.streamlit.app" 30000).1.success = true ↔
      ((wake_up_app quiet_env "https://a.streamlit.app" 30000).1.status = "woken_up" ∨
       (wake_up_app quiet_env "https://a.streamlit.app" 30000).1.status = "already_awake") :=
  (wake_up_app_status_invariant quiet_env "https://a.streamlit.app" 30000).2

theorem closePage_not_in_wake_button_loop (env : ProbeEnv) :
    ∀ l : List String, Ev.closePage ∉ (wake_button_loop env l).2 := by
  intro l
  induction l with
  | nil => simp [wake_button_loop]
  | cons a rest ih =>
    cases hv : env.is_visible a with
    | error e => simp [wake_button_loop, hv, ih]
    | ok b =>
      cases b with
      | false => simp [wake_button_loop, hv, ih]
      | true =>
        cases hc : env.click a with
        | ok u => simp [wake_button_loop, hv, hc]
        | error e => simp [wake_button_loop, hv, hc, ih]

theorem closePage_not_in_indicator_loop (env : ProbeEnv) :
    ∀ l : List String, Ev.closePage ∉ (indicator_loop env l).2 := by
  intro l
  induction l with
  | nil => simp [indicator_loop]
  | cons a rest ih =>
    cases hv : env.is_visible a with
    | error e => simp [indicator_loop, hv, ih]
    | ok b =>
      cases b with
      | false => simp [indicator_loop, hv, ih]
      | true => simp [indicator_loop, hv]

theorem filter_closePage_nil (l : List Ev) (h : Ev.closePage ∉ l) :
    l.filter (fun e => e == Ev.closePage) = [] := by
  rw [List.filter_eq_nil_iff]
  intro a ha
  simp only [beq_iff_eq]
  intro heq
  rw [heq] at ha
  exact h ha

theorem getLast_concat_closePage (front : List Ev) (hf : Ev.closePage ∉ front) :
    (front ++ [Ev.closePage]).getLast? = some Ev.closePage ∧
    ((front ++ [Ev.closePage]).filter (fun e => e == Ev.closePage)).length = 1 := by
  constructor
  · exact List.getLast?_concat _
  · rw [List.filter_append, filter_closePage_nil front hf]
    rfl

/-- C8: the prober always returns exactly one record, for the URL it
was given, and whenever a page was opened the trace ends with the page
being closed, exactly once, on every outcome path; when new_page itself
raised, there is no page to close and none is closed. -/
theorem wake_up_app_page_cleanup (env : ProbeEnv) (url : String) (t : Nat) :
    ((wake_up_app env url t).1.url = url)
    ∧ (env.new_page = Except.ok () →
        (wake_up_app env url t).2.getLast? = some Ev.closePage ∧
        ((wake_up_app env url t).2.filter (fun e => e == Ev.closePage)).length = 1)
    ∧ (∀ e, env.new_page = Except.error e →
        Ev.closePage ∉ (wake_up_app env url t).2) := by
  refine ⟨?_, ?_, ?_⟩
  · cases hp : env.new_page with
    | error e =>
      cases e <;> simp [wake_up_app, hp, exception_update, initial_result]
    | ok u =>
      cases u
      cases hg : env.goto with
      | error e =>
        cases e <;> simp [wake_up_app, hp, hg, exception_update, initial_result]
      | ok x =>
        simp only [wake_up_app, hp, hg, initial_result]
        split
        · rfl
        · split <;> rfl
  · intro hp
    cases hg : env.goto with
    | error e =>
      cases e <;> simp [wake_up_app, hp, hg, exception_update, initial_result]
    | ok x =>
      have hwb := closePage_not_in_wake_button_loop env wake_up_selectors
      have hind := closePage_not_in_indicator_loop env streamlit_indicators
      have hfront1 : Ev.closePage ∉
          Ev.newPage :: (wake_button_loop env wake_up_selectors).2 := by
        intro hmem
        rcases List.mem_cons.mp hmem with h | h
        · exact Ev.noConfusion h
        · exact hwb h
      have hfront2 : Ev.closePage ∉
          Ev.newPage :: ((wake_button_loop env wake_up_selectors).2 ++
            (indicator_loop env streamlit_indicators).2) := by
        intro hmem
        rcases List.mem_cons.mp hmem with h | h
        · exact Ev.noConfusion h
        · rcases List.mem_append.mp h with h2 | h2
          · exact hwb h2
          · exact hind h2
      simp only [wake_up_app, hp, hg, initial_result]
      split
      · exact getLast_concat_closePage
          (Ev.newPage :: (wake_button_loop env wake_up_selectors).2) hfront1
      · split <;>
          exact getLast_concat_closePage
            (Ev.newPage :: ((wake_button_loop env wake_up_selectors).2 ++
              (indicator_loop env streamlit_indicators).2)) hfront2
  · intro e hp
    cases e <;> simp [wake_up_app, hp, exception_update]

theorem wake_up_app_page_cleanup_witness :
    (wake_up_app quiet_env "https://a.streamlit.app" 30000).2.getLast? =
      some Ev.closePage :=
  ((wake_up_app_page_cleanup quiet_env "https://a.streamlit.app" 30000).2.1 rfl).1

theorem py_seconds_str_decomp (t : Nat) :
    ∃ x, py_seconds_str t = toString (t / 1000) ++ x := by
  unfold py_seconds_str
  split
  · exact ⟨".0", rfl⟩
  · exact ⟨"." ++ float_frac_str (t % 1000), by rw [String.append_assoc]⟩

theorem wake_up_multiple_go_length (envs : Nat → ProbeEnv) (t n : Nat) :
    ∀ i l, (wake_up_multiple_go envs t n i l).1.length = l.length := by
  intro i l
  induction l generalizing i with
  | nil => rfl
  | cons u rest ih => simp [wake_up_multiple_go, ih]

/-- C3: a navigation timeout yields a record with status unknown,
success false and a message mentioning the configured timeout in
seconds (the integer part of timeout/1000 appears verbatim); any other
exception raised by navigation yields status unknown with the
exception's message; in both cases the probe returns normally and the
driver still produces one record per URL, so the batch continues. -/
theorem wake_up_app_error_recovery (env : ProbeEnv) (url : String) (t : Nat) :
    (env.new_page = Except.ok () → env.goto = Except.error PwError.timeout →
      (wake_up_app env url t).1.status = "unknown" ∧
      (wake_up_app env url t).1.success = false ∧
      ∃ pre post, (wake_up_app env url t).1.message =
        pre ++ toString (t / 1000) ++ post)
    ∧ (∀ m, env.new_page = Except.ok () →
      env.goto = Except.error (PwError.other m) →
      (wake_up_app env url t).1.status = "unknown" ∧
      (wake_up_app env url t).1.success = false ∧
      (wake_up_app env url t).1.message = "Error: " ++ m)
    ∧ (∀ envs urls,
        (wake_up_multiple_apps envs t urls).1.length = urls.length) := by
  refine ⟨?_, ?_, ?_⟩
  · intro hp hg
    obtain ⟨x, hx⟩ := py_seconds_str_decomp t
    refine ⟨?_, ?_, "Timeout after ", x ++ " seconds", ?_⟩
    · simp [wake_up_app, hp, hg, exception_update, initial_result]
    · simp [wake_up_app, hp, hg, exception_update, initial_result]
    · simp only [wake_up_app, hp, hg, exception_update, initial_result,
        timeout_message, hx]
      simp [String.append_assoc]
  · intro m hp hg
    refine ⟨?_, ?_, ?_⟩ <;>
      simp [wake_up_app, hp, hg, exception_update, initial_result]
  · intro envs urls
    exact wake_up_multiple_go_length envs t urls.length 0 urls

theorem wake_up_app_error_recovery_witness :
    (wake_up_app c3_env "https://a.streamlit.app" 30000).1.status = "unknown" ∧
    (wake_up_app c3_env "https://a.streamlit.app" 30000).1.success = false := by
  have h := (wake_up_app_error_recovery c3_env "https://a.streamlit.app" 30000).1
    rfl rfl
  exact ⟨h.1, h.2.1⟩

theorem wake_up_multiple_go_results (envs : Nat → ProbeEnv) (t n : Nat) :
    ∀ i l, (wake_up_multiple_go envs t n i l).1 =
      (List.enumFrom i l).map (fun p => (wake_up_app (envs p.1) p.2 t).1) := by
  intro i l
  induction l generalizing i with
  | nil => rfl
  | cons u rest ih => simp [wake_up_multiple_go, List.enumFrom, ih]

theorem wake_up_multiple_go_probes (envs : Nat → ProbeEnv) (t n : Nat) :
    ∀ i l, (wake_up_multiple_go envs t n i l).2.filterMap probe_of =
      List.enumFrom i l := by
  intro i l
  induction l generalizing i with
  | nil => rfl
  | cons u rest ih =>
    by_cases hlt : i + 1 < n <;>
      simp [wake_up_multiple_go, hlt, List.filterMap_cons, probe_of,
        List.enumFrom, ih]

theorem wake_up_multiple_go_sleeps (envs : Nat → ProbeEnv) (t n : Nat) :
    ∀ i l, i + l.length = n →
      ((wake_up_multiple_go envs t n i l).2.filter is_sleep).length =
        l.length - 1 := by
  intro i l
  induction l generalizing i with
  | nil => intro _; rfl
  | cons u rest ih =>
    intro hn
    cases rest with
    | nil =>
      simp only [List.length_cons, List.length_nil] at hn
      have hnlt : ¬ (i + 1 < n) := by omega
      simp [wake_up_multiple_go, hnlt, is_sleep]
    | cons v rest2 =>
      simp only [List.length_cons] at hn
      have hlt : i + 1 < n := by omega
      have ih2 := ih (i + 1) (by simp only [List.length_cons]; omega)
      have hshape : (wake_up_multiple_go envs t n i (u :: v :: rest2)).2 =
          DrvEv.probe i u :: DrvEv.sleep 2 ::
            (wake_up_multiple_go envs t n (i + 1) (v :: rest2)).2 := by
        simp [wake_up_multiple_go, hlt]
      rw [hshape]
      simp [is_sleep]
      simp only [List.length_cons] at ih2
      omega

theorem wake_up_multiple_go_last (envs : Nat → ProbeEnv) (t n : Nat) :
    ∀ i l, i + l.length = n → ∀ d,
      (wake_up_multiple_go envs t n i l).2.getLast? = some d →
      is_sleep d = false := by
  intro i l
  induction l generalizing i with
  | nil => intro _ d hd; exact absurd hd (by simp [wake_up_multiple_go])
  | cons u rest ih =>
    intro hn d
    cases rest with
    | nil =>
      simp only [List.length_cons, List.length_nil] at hn
      have hnlt : ¬ (i + 1 < n) := by omega
      intro hd
      simp only [wake_up_multiple_go, hnlt, if_neg, ite_false,
        List.getLast?_singleton] at hd
      rw [← Option.some_inj.mp hd]
      rfl
    | cons v rest2 =>
      simp only [List.length_cons] at hn
      have hlt : i + 1 < n := by omega
      intro hd
      have hshape : (wake_up_multiple_go envs t n i (u :: v :: rest2)).2 =
          DrvEv.probe i u :: DrvEv.sleep 2 ::
            (wake_up_multiple_go envs t n (i + 1) (v :: rest2)).2 := by
        simp [wake_up_multiple_go, hlt]
      obtain ⟨tl, htl⟩ : ∃ tl,
          (wake_up_multiple_go envs t n (i + 1) (v :: rest2)).2 =
            DrvEv.probe (i + 1) v :: tl := ⟨_, rfl⟩
      rw [hshape, List.getLast?_cons_cons, htl, List.getLast?_cons_cons,
        ← htl] at hd
      refine ih (i + 1) ?_ d hd
      simp only [List.length_cons]
      omega

/-- C4: for a list of N URLs, the driver invokes the prober exactly N
times, once per URL in input order, returns the outcome records in the
same order as the input, and inserts a 2-second sleep between
consecutive probes and none after the last, so exactly N-1 sleeps. -/
theorem wake_up_multiple_apps_spec (envs : Nat → ProbeEnv) (t : Nat)
    (urls : List String) :
    ((wake_up_multiple_apps envs t urls).1 =
      urls.enum.map (fun p => (wake_up_app (envs p.1) p.2 t).1))
    ∧ ((wake_up_multiple_apps envs t urls).1.length = urls.length)
    ∧ ((wake_up_multiple_apps envs t urls).2.filterMap probe_of = urls.enum)
    ∧ (((wake_up_multiple_apps envs t urls).2.filter is_sleep).length =
        urls.length - 1)
    ∧ (∀ d, (wake_up_multiple_apps envs t urls).2.getLast? = some d →
        is_sleep d = false) := by
  refine ⟨?_, ?_, ?_, ?_, ?_⟩
  · exact wake_up_multiple_go_results envs t urls.length 0 urls
  · exact wake_up_multiple_go_length envs t urls.length 0 urls
  · exact wake_up_multiple_go_probes envs t urls.length 0 urls
  · exact wake_up_multiple_go_sleeps envs t urls.length 0 urls (by omega)
  · exact wake_up_multiple_go_last envs t urls.length 0 urls (by omega)

theorem wake_up_multiple_apps_spec_witness :
    ((wake_up_multiple_apps (fun _ => quiet_env) 30000
        ["https://a.streamlit.app", "https://b.streamlit.app"]).2.filter
      is_sleep).length = 1 := by
  have h := wake_up_multiple_apps_spec (fun _ => quiet_env) 30000
    ["https://a.streamlit.app", "https://b.streamlit.app"]
  simpa using h.2.2.2.1

theorem summary_foldl_counts (l : List WakeResult) :
    ∀ a b c : Nat, l.foldl summary_step (a, b, c) =
      (a + l.countP (fun r => r.status == "woken_up"),
       b + l.countP (fun r => r.status == "already_awake"),
       c + l.countP (fun r =>
         !(r.status == "woken_up") && !(r.status == "already_awake"))) := by
  induction l with
  | nil => intro a b c; simp
  | cons r rest ih =>
    intro a b c
    rw [List.foldl_cons]
    by_cases h1 : r.status = "woken_up"
    · rw [show summary_step (a, b, c) r = (a + 1, b, c) from by
        simp [summary_step, h1]]
      rw [ih]
      simp [List.countP_cons, h1, Prod.ext_iff]
      omega
    · by_cases h2 : r.status = "already_awake"
      · rw [show summary_step (a, b, c) r = (a, b + 1, c) from by
          simp [summary_step, h1, h2]]
        rw [ih]
        simp [List.countP_cons, h1, h2, Prod.ext_iff]
        omega
      · rw [show summary_step (a, b, c) r = (a, b, c + 1) from by
          simp [summary_step, h1, h2]]
        rw [ih]
        simp [List.countP_cons, h1, h2, Prod.ext_iff]
        omega

theorem countP_status_partition (l : List WakeResult) :
    l.countP (fun r => r.status == "woken_up") +
    l.countP (fun r => r.status == "already_awake") +
    l.countP (fun r =>
      !(r.status == "woken_up") && !(r.status == "already_awake")) =
    l.length := by
  induction l with
  | nil => rfl
  | cons r rest ih =>
    by_cases h1 : r.status = "woken_up"
    · simp [List.countP_cons, h1, List.length_cons]
      omega
    · by_cases h2 : r.status = "already_awake"
      · simp [List.countP_cons, h1, h2, List.length_cons]
        omega
      · simp [List.countP_cons, h1, h2, List.length_cons]
        omega

/-- C7: the reporter counts the records with status woken_up, those
with status already_awake, and everything else as failed/unclear; the
three counters partition the record list, and the success rate is
(woken_up + already_awake) / total times 100, with rate 0 for an empty
list. -/
theorem print_summary_spec (results : List WakeResult) :
    ((summary_counts results).1 =
      results.countP (fun r => r.status == "woken_up"))
    ∧ ((summary_counts results).2.1 =
      results.countP (fun r => r.status == "already_awake"))
    ∧ ((summary_counts results).2.2 =
      results.countP (fun r =>
        !(r.status == "woken_up") && !(r.status == "already_awake")))
    ∧ ((summary_counts results).1 + (summary_counts results).2.1 +
        (summary_counts results).2.2 = results.length)
    ∧ (results = [] → success_rate results = 0)
    ∧ (results ≠ [] → success_rate results =
        ((results.countP (fun r => r.status == "woken_up") +
          results.countP (fun r => r.status == "already_awake") : ℚ) /
         (results.length : ℚ)) * 100) := by
  have hc := summary_foldl_counts results 0 0 0
  have h1 : (summary_counts results).1 =
      results.countP (fun r => r.status == "woken_up") := by
    rw [summary_counts, hc]
    simp
  have h2 : (summary_counts results).2.1 =
      results.countP (fun r => r.status == "already_awake") := by
    rw [summary_counts, hc]
    simp
  have h3 : (summary_counts results).2.2 =
      results.countP (fun r =>
        !(r.status == "woken_up") && !(r.status == "already_awake")) := by
    rw [summary_counts, hc]
    simp
  refine ⟨h1, h2, h3, ?_, ?_, ?_⟩
  · rw [h1, h2, h3]
    exact countP_status_partition results
  · intro hnil
    rw [success_rate, if_pos (List.isEmpty_iff.mpr hnil)]
  · intro hne
    rw [success_rate, if_neg (by
      intro hempty
      exact hne (List.isEmpty_iff.mp hempty))]
    rw [h1, h2]

theorem print_summary_spec_witness :
    success_rate [] = 0 ∧ success_rate [sample_result] = 100 := by
  constructor
  · exact (print_summary_spec []).2.2.2.2.1 rfl
  · have h := (print_summary_spec [sample_result]).2.2.2.2.2 (by
      intro hnil
      exact List.noConfusion hnil)
    rw [h]
    norm_num [List.countP_cons, sample_result]
    decide

end WakeStreamlit
